import Mathlib

/-!
Verification of the Centreon email notification scripts
(`centreon-host-email-notification.py` and
`centreon-service-email-notification.py`): a shallow embedding of the
message construction, CLI handling, transport dispatch and resource
handling of the two scripts, together with theorems about the claims of
the specification.
-/

/-! ## Substring machinery

A small executable substring search used to state "the rendered output
contains the literal value of a field". -/

/-- Tests whether `p` is a prefix of the character list `s`. -/
def startsWithL : List Char → List Char → Bool
  | _, [] => true
  | [], _ :: _ => false
  | a :: s, b :: p => a == b && startsWithL s p

/-- Tests whether `p` occurs as a contiguous sublist of `s`. -/
def hasSubL : List Char → List Char → Bool
  | [], p => p.isEmpty
  | a :: s, p => startsWithL (a :: s) p || hasSubL s p

/-- Tests whether `sub` occurs as a substring of `s`. -/
def strContains (s sub : String) : Bool :=
  hasSubL s.data sub.data

/-- Concatenation of a list of string pieces; an f-string template is
exactly such a concatenation of literal chunks and interpolated values. -/
def concatL : List String → String
  | [] => ""
  | s :: t => s ++ concatL t

/-! ## Color selection

Embeds the `if/elif` color chain of both scripts
(host script lines 59–66, service script lines 61–68). -/

/-- Color chain of the host script: `if host_state == "OK": color = "green"
elif host_state == "WARNING": ... elif host_state == "CRITICAL" or
host_state == "DOWN": ... else: "gray"`. -/
def hostColor (host_state : String) : String :=
  if host_state = "OK" then "green"
  else if host_state = "WARNING" then "orange"
  else if host_state = "CRITICAL" ∨ host_state = "DOWN" then "red"
  else "gray"

/-- Color chain of the service script; the `service_state in
("CRITICAL", "DOWN")` membership test is the disjunction of the two
equalities. -/
def serviceColor (service_state : String) : String :=
  if service_state = "OK" then "green"
  else if service_state = "WARNING" then "orange"
  else if service_state = "CRITICAL" ∨ service_state = "DOWN" then "red"
  else "gray"

/-! ## Subjects (host script line 69, service script line 71) -/

/-- The subject line `f"Host {host_name} status is {host_state}"`. -/
def hostSubject (host_name host_state : String) : String :=
  "Host " ++ host_name ++ " status is " ++ host_state

/-- The subject line `f"Service {service_desc} in host {host_name} status
is {service_state}"`. -/
def serviceSubject (service_desc host_name service_state : String) : String :=
  "Service " ++ service_desc ++ " in host " ++ host_name ++ " status is " ++ service_state

/-! ## Alert records

Each script receives a fixed set of string fields (its Alert Record),
one per required CLI flag. -/

/-- The twelve fields of the host script. -/
structure HostArgs where
  notify_type : String
  host_name : String
  host_alias : String
  host_state : String
  host_address : String
  host_output : String
  recipient_email : String
  totalup : String
  totaldown : String
  duration : String
  date : String
  time : String
deriving DecidableEq

/-- The thirteen fields of the service script. -/
structure ServiceArgs where
  host_name : String
  host_alias : String
  host_address : String
  service_output : String
  long_date_time : String
  service_desc : String
  service_state : String
  service_duration : String
  contact_email : String
  total_services_warning : String
  total_services_critical : String
  total_services_unknown : String
  host_group_alias : String
deriving DecidableEq

/-! ## Configuration constants (host script lines 51–56, service script
lines 56–58) -/

/-- The constant `sender_email = ""` of the host script. -/
def hostSenderEmail : String := ""

/-- The constant `url = ""` of the host script. -/
def hostUrl : String := ""

/-- The constant `url_image = ""` of the host script. -/
def hostUrlImage : String := ""

/-- The constant `url = ""` of the service script. -/
def serviceUrl : String := ""

/-- The constant `url_image = ""` of the service script. -/
def serviceUrlImage : String := ""

/-- The sender address `f"centreon-{host_group_alias}@contoso.com"`
(service script line 56). -/
def serviceSender (host_group_alias : String) : String :=
  "centreon-" ++ host_group_alias ++ "@contoso.com"

/-! ## HTML bodies

The f-string `html_content` of each script, as the list of its literal
chunks and interpolated values, in source order (host script lines
70–120, service script lines 72–138). -/

/-- Pieces of the host script's `html_content` f-string. -/
def hostPieces (a : HostArgs) : List String := [
    "\n        <html>\n            <body>\n                <table border=0 width=\x2798%\x27 cellpadding=0 cellspacing=0>\n                    <tr>\n                        <td valign=\x27top\x27>\n                        <br/>\n                            <img width=\"216\" height=\"85\" src=\x27",
    hostUrlImage,
    "\x27> \n                        </td>\n                    </tr>\n                </table>\n\n                <br/>\n\n                <table border=0 cellpadding=0 cellspacing=0 width=\x2798%\x27>\";               \n                    <tr bgcolor=",
    hostColor a.host_state,
    ">\n                        <td width=\x27140\x27><b><font color=#ffffff>Host: </font></b></td>\n                        <td><font color=#ffffff><b> ",
    a.notify_type,
    " [",
    a.host_state,
    "]</b></font></td>\n                    </tr> \n                    <tr bgcolor=#eeeeee>\n                        <td><b>Hostname: </b></td>\n                        <td><b><a href=\x27",
    hostUrl,
    "/centreon/main.php?p=20202&o=hd&host_name=",
    a.host_name,
    "\x27>",
    a.host_alias,
    "</a></b></td>\n                    </tr>\n                    <tr bgcolor=#fefefe>\n                        <td><b>IP: </b></td>\n                        <td><b>",
    a.host_address,
    "</b></td>\n                    </tr>\n                    <tr bgcolor=#eeeeee>\n                        <td><b>Date/time: </b></td>\n                        <td>",
    a.date,
    " ",
    a.time,
    "</td>\n                    </tr>\n                    <tr bgcolor=#fefefe>\n                        <td><b>Aditional Info: </b></td>\n                        <td><b>",
    a.host_output,
    "</b></td>\n                    </tr>\n                    <tr bgcolor=#eeeeee>\n                        <td><b>Total Hosts Up: </b></td>\n                        <td><b>",
    a.totalup,
    "</b></td>\n                    </tr>\n                    <tr bgcolor=#fefefe>\n                        <td><b>Total Hosts Down: </b></td>\n                        <td><b>",
    a.totaldown,
    "</b></td>\n                    </tr>\n                    <tr bgcolor=#fefefe>\n                        <td><i>Last status</i> duration: </td>\n                        <td><font color=#CC0000><b>",
    a.duration,
    "</b></font></td>\n                    </tr> \n                </table>\n            </body>\n        </html> \n    "]

/-- The rendered `html_content` of the host script. -/
def hostHtml (a : HostArgs) : String := concatL (hostPieces a)

/-- Pieces of the service script's `html_content` f-string. -/
def servicePieces (b : ServiceArgs) : List String := [
    "\n    <html>\n        <body>\n            <img src=\x27",
    serviceUrlImage,
    "\x27>\n            <br>\n            <br>\n            <table border=0 cellpadding=0 cellspacing=0 width=100%>\n                <tr bgcolor=",
    serviceColor b.service_state,
    ">\n                    <td width=\x27140\x27><b><font color=#ffffff>Notificacion:</font></b></td>\n                    <td><font color=#ffffff><b>",
    b.service_state,
    "</b></font></td>\n                </tr>\n                <tr bgcolor=#eeeeee>\n                    <td><b>Host:</b></td>\n                    <td><font color=#0000CC><b><a href=\x27",
    serviceUrl,
    "/centreon/main.php?p=20202&o=hd&host_name=",
    b.host_name,
    "\x27>",
    b.host_alias,
    "</a></b></font></td>\n                </tr>\n                <tr bgcolor=#fefefe>\n                    <td><b>Service:</b></td>\n                    <td><font color=#0000CC><b><a href=\x27",
    serviceUrl,
    "/centreon/main.php?p=20201&o=svcd&host_name=",
    b.host_name,
    "&service_description=",
    b.service_desc,
    "\x27>",
    b.service_desc,
    "</a></b></font></td>\n                </tr>\n                <tr bgcolor=#eeeeee>\n                    <td><b>IP:</b></td>\n                    <td><font color=#005555><b>",
    b.host_address,
    "</b></font></td>\n                </tr>\n                <tr bgcolor=#fefefe>\n                    <td><b>Date/time:</b></td>\n                    <td><font color=#005555>",
    b.long_date_time,
    "</font></td>\n                </tr>\n                <tr bgcolor=#eeeeee>\n                    <td><b>Aditional Info:</b></td>\n                    <td>",
    b.service_output,
    "</td>\n                </tr>\n                <tr bgcolor=#fefefe>\n                    <td><b>Notified to:</b></td>\n                    <td><font color=#007700><b>",
    b.contact_email,
    "</b></font></td>\n                </tr>\n            </table>\n            <br>\n            <br>\n            <table border=0 cellpadding=0 cellspacing=0 width=100%>\n                <tr bgcolor=#000055>\n                    <td><b><font color=#FFFFFF>Resumen</font></b></td>\n                    <td></td>\n                </tr>\n                <tr bgcolor=#eeeeee>\n                    <td><b>Host Group:</b></td>\n                    <td><b>",
    b.host_group_alias,
    "</b></td>\n                </tr>\n                <tr bgcolor=#f6f6ff>\n                    <td>Total Warning:</td>\n                    <td>",
    b.total_services_warning,
    "</td>\n                </tr>\n                <tr bgcolor=#fffef6>\n                    <td>Total Critical:</td>\n                    <td>",
    b.total_services_critical,
    "</td>\n                </tr>\n                <tr bgcolor=#f6f6ff>\n                    <td>Total Unknown:</td>\n                    <td>",
    b.total_services_unknown,
    "</td>\n                </tr>\n                <tr bgcolor=#fffef6>\n                    <td>In <i>ALERT</i> for:</td>\n                    <td>",
    b.service_duration,
    "</td>\n                </tr>\n            </table>\n        </body>\n    </html>\n    "]

/-- The rendered `html_content` of the service script. -/
def serviceHtml (b : ServiceArgs) : String := concatL (servicePieces b)

/-- The message content handed to the transport, as seen by the claims:
subject followed by HTML body (host script). -/
def hostMessageText (a : HostArgs) : String :=
  hostSubject a.host_name a.host_state ++ hostHtml a

/-- The message content handed to the transport, as seen by the claims:
subject followed by HTML body (service script). -/
def serviceMessageText (b : ServiceArgs) : String :=
  serviceSubject b.service_desc b.host_name b.service_state ++ serviceHtml b

/-! ## MIME message headers (host script lines 122–127, service script
lines 140–145) -/

/-- The headers and body set on the `MIMEMultipart` message. -/
structure MimeMessage where
  subject : String
  fromAddr : String
  toAddr : String
  bodyHtml : String
deriving DecidableEq

/-- Message built by the host script: Subject, `From = sender_email`,
`To = recipient_email`, HTML part attached. -/
def buildHostMessage (a : HostArgs) : MimeMessage :=
  { subject := hostSubject a.host_name a.host_state
    fromAddr := hostSenderEmail
    toAddr := a.recipient_email
    bodyHtml := hostHtml a }

/-- Message built by the service script: Subject,
`From = f"centreon-{host_group_alias}@contoso.com"`,
`To = contact_email`, HTML part attached. -/
def buildServiceMessage (b : ServiceArgs) : MimeMessage :=
  { subject := serviceSubject b.service_desc b.host_name b.service_state
    fromAddr := serviceSender b.host_group_alias
    toAddr := b.contact_email
    bodyHtml := serviceHtml b }

/-! ## Transport dispatch and observable run outcome

The transport (SMTP session in the host script, `/usr/sbin/sendmail`
subprocess in the service script) is an external collaborator; one
invocation either completes or raises an exception carrying a message.
It is modelled as an `Except String Unit` value supplied to the run. -/

/-- Observable outcome of one script run: the process exit code, how many
times the transport was invoked, what was printed to standard output, and
whether an exception escaped the script uncaught. -/
structure RunOutcome where
  exitCode : Nat
  transportAttempts : Nat
  printed : List String
  uncaught : Option String
deriving DecidableEq

/-- The `try`/`except` send block of the host script (lines 129–137): one
transport attempt; on success it prints `"Email sent successfully!"`, on
any exception `e` it prints `f"Failed to send email: {e}"`; the
catch-all `except Exception` means nothing propagates, and the function
then returns, so the process exits with code 0 either way. -/
def sendHostEmail (a : HostArgs) (transport : Except String Unit) : RunOutcome :=
  match a, transport with
  | _, .ok _ => ⟨0, 1, ["Email sent successfully!"], none⟩
  | _, .error e => ⟨0, 1, ["Failed to send email: " ++ e], none⟩

/-- The `try`/`except` send block of the service script (lines 147–155):
one transport attempt; on success nothing is printed, on any exception
`e` it prints `f"Error sending email: {e}"`; the catch-all
`except Exception` means nothing propagates, and the process exits with
code 0 either way. -/
def sendServiceEmail (b : ServiceArgs) (transport : Except String Unit) : RunOutcome :=
  match b, transport with
  | _, .ok _ => ⟨0, 1, [], none⟩
  | _, .error e => ⟨0, 1, ["Error sending email: " ++ e], none⟩

/-! ## CLI surface

`__main__` of each script declares every flag with `required=True`
(host script lines 141–163, service script lines 158–181). The command
line is modelled as one `Option String` per flag; argparse's documented
behaviour for a missing required argument — print a usage error and exit
with status 2 before the script's own code runs — is embedded in the
`run*Main` functions. -/

/-- The host script's command line: one optional value per flag. -/
structure HostArgv where
  notify_type : Option String
  host_name : Option String
  host_alias : Option String
  host_state : Option String
  host_address : Option String
  host_output : Option String
  recipient_email : Option String
  totalup : Option String
  totaldown : Option String
  duration : Option String
  date : Option String
  time : Option String
deriving DecidableEq

/-- The service script's command line: one optional value per flag. -/
structure ServiceArgv where
  host_name : Option String
  host_alias : Option String
  host_address : Option String
  service_output : Option String
  long_date_time : Option String
  service_desc : Option String
  service_state : Option String
  service_duration : Option String
  contact_email : Option String
  total_services_warning : Option String
  total_services_critical : Option String
  total_services_unknown : Option String
  host_group_alias : Option String
deriving DecidableEq

/-- Holds (`true`) iff some required host flag is absent from the command line. -/
def hostMissing (v : HostArgv) : Bool :=
  v.notify_type.isNone || v.host_name.isNone || v.host_alias.isNone ||
  v.host_state.isNone || v.host_address.isNone || v.host_output.isNone ||
  v.recipient_email.isNone || v.totalup.isNone || v.totaldown.isNone ||
  v.duration.isNone || v.date.isNone || v.time.isNone

/-- Holds (`true`) iff some required service flag is absent from the command line. -/
def serviceMissing (v : ServiceArgv) : Bool :=
  v.host_name.isNone || v.host_alias.isNone || v.host_address.isNone ||
  v.service_output.isNone || v.long_date_time.isNone || v.service_desc.isNone ||
  v.service_state.isNone || v.service_duration.isNone || v.contact_email.isNone ||
  v.total_services_warning.isNone || v.total_services_critical.isNone ||
  v.total_services_unknown.isNone || v.host_group_alias.isNone

/-- Argument parsing of the host script: succeeds exactly when every
required flag is present. -/
def parseHostArgv (v : HostArgv) : Option HostArgs :=
  v.notify_type.bind fun f1 =>
  v.host_name.bind fun f2 =>
  v.host_alias.bind fun f3 =>
  v.host_state.bind fun f4 =>
  v.host_address.bind fun f5 =>
  v.host_output.bind fun f6 =>
  v.recipient_email.bind fun f7 =>
  v.totalup.bind fun f8 =>
  v.totaldown.bind fun f9 =>
  v.duration.bind fun f10 =>
  v.date.bind fun f11 =>
  v.time.map fun f12 =>
  ⟨f1, f2, f3, f4, f5, f6, f7, f8, f9, f10, f11, f12⟩

/-- Argument parsing of the service script: succeeds exactly when every
required flag is present. -/
def parseServiceArgv (v : ServiceArgv) : Option ServiceArgs :=
  v.host_name.bind fun f1 =>
  v.host_alias.bind fun f2 =>
  v.host_address.bind fun f3 =>
  v.service_output.bind fun f4 =>
  v.long_date_time.bind fun f5 =>
  v.service_desc.bind fun f6 =>
  v.service_state.bind fun f7 =>
  v.service_duration.bind fun f8 =>
  v.contact_email.bind fun f9 =>
  v.total_services_warning.bind fun f10 =>
  v.total_services_critical.bind fun f11 =>
  v.total_services_unknown.bind fun f12 =>
  v.host_group_alias.map fun f13 =>
  ⟨f1, f2, f3, f4, f5, f6, f7, f8, f9, f10, f11, f12, f13⟩

/-- A full run of the host script: argparse first (usage error and exit
status 2 on a missing required flag, with the transport never reached),
then `send_centreon_alert_email`. -/
def runHostMain (v : HostArgv) (transport : Except String Unit) : RunOutcome :=
  match parseHostArgv v with
  | none => ⟨2, 0, ["usage: the following arguments are required"], none⟩
  | some a => sendHostEmail a transport

/-- A full run of the service script: argparse first (usage error and
exit status 2 on a missing required flag, with the transport never
reached), then `send_centreon_alert_email`. -/
def runServiceMain (v : ServiceArgv) (transport : Except String Unit) : RunOutcome :=
  match parseServiceArgv v with
  | none => ⟨2, 0, ["usage: the following arguments are required"], none⟩
  | some b => sendServiceEmail b transport

/-! ## Resource model

One outbound transport resource per run: the SMTP connection of the host
script, or the sendmail subprocess (with its stdin pipe) of the service
script.  Each execution path of the send block is mapped to the sequence
of acquire/release events it performs. -/

/-- Acquisition and release of the single outbound transport resource. -/
inductive REvent where
  | acquire : REvent
  | release : REvent
deriving DecidableEq

/-- Where, if anywhere, the host script's send block fails. -/
inductive HostSendPath where
  | atConnect : HostSendPath
  | atStartTls : HostSendPath
  | atLogin : HostSendPath
  | atSend : HostSendPath
  | success : HostSendPath
deriving DecidableEq

/-- Where, if anywhere, the service script's send block fails. -/
inductive ServiceSendPath where
  | atSpawn : ServiceSendPath
  | atWrite : ServiceSendPath
  | success : ServiceSendPath
deriving DecidableEq

/-- Resource events of the host script's send block (lines 131–134).
`smtplib.SMTP(...)` is the header of a `with` statement: if the
constructor raises, no connection was acquired; once the `with` block is
entered, its `__exit__` closes the connection on every exit, normal or
exceptional (`starttls`, `login` or `sendmail` raising). -/
def hostResourceTrace : HostSendPath → List REvent
  | .atConnect => []
  | .atStartTls => [.acquire, .release]
  | .atLogin => [.acquire, .release]
  | .atSend => [.acquire, .release]
  | .success => [.acquire, .release]

/-- Resource events of the service script's send block (lines 149–153).
If `subprocess.Popen` raises, no subprocess was spawned; once spawned,
`communicate` closes the subprocess's stdin pipe and waits for the child
to terminate — also when the write to the pipe fails, which
`communicate` handles internally before closing. -/
def serviceResourceTrace : ServiceSendPath → List REvent
  | .atSpawn => []
  | .atWrite => [.acquire, .release]
  | .success => [.acquire, .release]

/-! ## Concrete records used by witnesses and counterexamples -/

/-- A fully populated host command line. -/
def hostArgvFull : HostArgv :=
  ⟨some "PROBLEM", some "web01", some "web01", some "DOWN", some "10.0.0.5",
   some "ping timeout", some "ops@example.com", some "4", some "1",
   some "0d 0h 5m", some "2025-08-22", some "12:00:00"⟩

/-- The same host command line with the required `--host_state` flag absent. -/
def hostArgvGap : HostArgv := { hostArgvFull with host_state := none }

/-- A fully populated service command line. -/
def serviceArgvFull : ServiceArgv :=
  ⟨some "web01", some "web01", some "10.0.0.5", some "timeout",
   some "Fri May 2 11:37:40 CEST 2025", some "HTTP", some "CRITICAL",
   some "0d 0h 0m 19s", some "ops@example.com", some "0", some "1",
   some "0", some "TEST"⟩

/-- The same service command line with the required `--contact_email`
flag absent. -/
def serviceArgvGap : ServiceArgv := { serviceArgvFull with contact_email := none }

/-- The spec's example record: `host_name = "web01"`,
`host_state = "CRITICAL"`. -/
def w01Rec : HostArgs :=
  ⟨"PROBLEM", "web01", "alias01", "CRITICAL", "10.0.0.5", "down",
   "ops@example.com", "4", "1", "0d", "2025-08-22", "12:00:00"⟩

/-- A host record whose `recipient_email` is a string (`"~"`) occurring
nowhere in the template or the other fields. -/
def hostRecTilde : HostArgs :=
  ⟨"x", "x", "x", "x", "x", "x", "~", "x", "x", "x", "x", "x"⟩

/-- A host record and a service record agreeing on every shared field. -/
def hostRecShared : HostArgs :=
  ⟨"PROBLEM", "web01", "web01", "DOWN", "10.0.0.1", "out",
   "ops@example.com", "1", "2", "0d", "2025-08-22", "12:00"⟩

/-- Service-side counterpart of `hostRecShared`. -/
def serviceRecShared : ServiceArgs :=
  ⟨"web01", "web01", "10.0.0.1", "out", "2025-08-22 12:00", "svc", "DOWN",
   "0d", "ops@example.com", "0", "0", "0", "grp"⟩

/-! ## Substring lemmas -/

theorem startsWithL_self_append (p r : List Char) :
    startsWithL (p ++ r) p = true := by
  induction p with
  | nil => cases r <;> rfl
  | cons c t ih => simp [startsWithL, ih]

theorem hasSubL_nil_pat (s : List Char) : hasSubL s [] = true := by
  cases s <;> rfl

theorem hasSubL_self_append (p r : List Char) :
    hasSubL (p ++ r) p = true := by
  cases p with
  | nil => simpa using hasSubL_nil_pat r
  | cons c t =>
    simp only [List.cons_append, hasSubL, Bool.or_eq_true]
    exact Or.inl (startsWithL_self_append (c :: t) r)

theorem hasSubL_append_left (l m p : List Char) (h : hasSubL m p = true) :
    hasSubL (l ++ m) p = true := by
  induction l with
  | nil => simpa using h
  | cons c t ih =>
    simp only [List.cons_append, hasSubL, Bool.or_eq_true]
    exact Or.inr ih

theorem strContains_append_left (x s sub : String)
    (h : strContains s sub = true) : strContains (x ++ s) sub = true := by
  unfold strContains at *
  rw [String.data_append]
  exact hasSubL_append_left x.data s.data sub.data h

theorem strContains_concat (l : List String) (s : String) (h : s ∈ l) :
    strContains (concatL l) s = true := by
  induction l with
  | nil => cases h
  | cons a t ih =>
    rcases List.mem_cons.mp h with h1 | h2
    · subst h1
      unfold strContains concatL
      rw [String.data_append]
      exact hasSubL_self_append s.data (concatL t).data
    · exact strContains_append_left a (concatL t) s (ih h2)

/-! ## Helper lemmas about option fields and parsing -/

theorem opt_some_of_isNone_false {α : Type} {o : Option α}
    (h : o.isNone = false) : ∃ x, o = some x := by
  cases o with
  | none => simp at h
  | some x => exact ⟨x, rfl⟩

theorem parseHostArgv_some_of (v : HostArgv) (h : hostMissing v = false) :
    ∃ a, parseHostArgv v = some a := by
  simp only [hostMissing, Bool.or_eq_false_iff] at h
  obtain ⟨⟨⟨⟨⟨⟨⟨⟨⟨⟨⟨h1, h2⟩, h3⟩, h4⟩, h5⟩, h6⟩, h7⟩, h8⟩, h9⟩, h10⟩, h11⟩, h12⟩ := h
  obtain ⟨v1, e1⟩ := opt_some_of_isNone_false h1
  obtain ⟨v2, e2⟩ := opt_some_of_isNone_false h2
  obtain ⟨v3, e3⟩ := opt_some_of_isNone_false h3
  obtain ⟨v4, e4⟩ := opt_some_of_isNone_false h4
  obtain ⟨v5, e5⟩ := opt_some_of_isNone_false h5
  obtain ⟨v6, e6⟩ := opt_some_of_isNone_false h6
  obtain ⟨v7, e7⟩ := opt_some_of_isNone_false h7
  obtain ⟨v8, e8⟩ := opt_some_of_isNone_false h8
  obtain ⟨v9, e9⟩ := opt_some_of_isNone_false h9
  obtain ⟨v10, e10⟩ := opt_some_of_isNone_false h10
  obtain ⟨v11, e11⟩ := opt_some_of_isNone_false h11
  obtain ⟨v12, e12⟩ := opt_some_of_isNone_false h12
  refine ⟨⟨v1, v2, v3, v4, v5, v6, v7, v8, v9, v10, v11, v12⟩, ?_⟩
  simp [parseHostArgv, e1, e2, e3, e4, e5, e6, e7, e8, e9, e10, e11, e12]

theorem parseServiceArgv_some_of (v : ServiceArgv) (h : serviceMissing v = false) :
    ∃ b, parseServiceArgv v = some b := by
  simp only [serviceMissing, Bool.or_eq_false_iff] at h
  obtain ⟨⟨⟨⟨⟨⟨⟨⟨⟨⟨⟨⟨h1, h2⟩, h3⟩, h4⟩, h5⟩, h6⟩, h7⟩, h8⟩, h9⟩, h10⟩, h11⟩, h12⟩, h13⟩ := h
  obtain ⟨v1, e1⟩ := opt_some_of_isNone_false h1
  obtain ⟨v2, e2⟩ := opt_some_of_isNone_false h2
  obtain ⟨v3, e3⟩ := opt_some_of_isNone_false h3
  obtain ⟨v4, e4⟩ := opt_some_of_isNone_false h4
  obtain ⟨v5, e5⟩ := opt_some_of_isNone_false h5
  obtain ⟨v6, e6⟩ := opt_some_of_isNone_false h6
  obtain ⟨v7, e7⟩ := opt_some_of_isNone_false h7
  obtain ⟨v8, e8⟩ := opt_some_of_isNone_false h8
  obtain ⟨v9, e9⟩ := opt_some_of_isNone_false h9
  obtain ⟨v10, e10⟩ := opt_some_of_isNone_false h10
  obtain ⟨v11, e11⟩ := opt_some_of_isNone_false h11
  obtain ⟨v12, e12⟩ := opt_some_of_isNone_false h12
  obtain ⟨v13, e13⟩ := opt_some_of_isNone_false h13
  refine ⟨⟨v1, v2, v3, v4, v5, v6, v7, v8, v9, v10, v11, v12, v13⟩, ?_⟩
  simp [parseServiceArgv, e1, e2, e3, e4, e5, e6, e7, e8, e9, e10, e11, e12, e13]

theorem hostMissing_false_of_parse (v : HostArgv) (a : HostArgs)
    (h : parseHostArgv v = some a) : hostMissing v = false := by
  simp only [parseHostArgv, Option.bind_eq_some, Option.map_eq_some'] at h
  obtain ⟨v1, e1, v2, e2, v3, e3, v4, e4, v5, e5, v6, e6, v7, e7, v8, e8, v9,
    e9, v10, e10, v11, e11, v12, e12, _⟩ := h
  simp [hostMissing, e1, e2, e3, e4, e5, e6, e7, e8, e9, e10, e11, e12]

theorem serviceMissing_false_of_parse (v : ServiceArgv) (b : ServiceArgs)
    (h : parseServiceArgv v = some b) : serviceMissing v = false := by
  simp only [parseServiceArgv, Option.bind_eq_some, Option.map_eq_some'] at h
  obtain ⟨v1, e1, v2, e2, v3, e3, v4, e4, v5, e5, v6, e6, v7, e7, v8, e8, v9,
    e9, v10, e10, v11, e11, v12, e12, v13, e13, _⟩ := h
  simp [serviceMissing, e1, e2, e3, e4, e5, e6, e7, e8, e9, e10, e11, e12, e13]

/-! ## Field-containment helpers -/

theorem hostContainsField (a : HostArgs) (f : String) (h : f ∈ hostPieces a) :
    strContains (hostMessageText a) f = true := by
  unfold hostMessageText hostHtml
  exact strContains_append_left _ _ _ (strContains_concat _ _ h)

theorem serviceContainsField (b : ServiceArgs) (f : String)
    (h : f ∈ servicePieces b) :
    strContains (serviceMessageText b) f = true := by
  unfold serviceMessageText serviceHtml
  exact strContains_append_left _ _ _ (strContains_concat _ _ h)

/-! ## Claims -/

/-- C1 (counterexample): on a host record and a service record agreeing on
every shared field (host `web01`, state `DOWN`, same alias, address,
output, duration, recipient), the two scripts do NOT produce identical
message content: already their subjects differ. -/
theorem claim_C1_counterexample :
    ¬ (hostSubject hostRecShared.host_name hostRecShared.host_state =
         serviceSubject serviceRecShared.service_desc serviceRecShared.host_name
           serviceRecShared.service_state ∧
       hostMessageText hostRecShared = serviceMessageText serviceRecShared) := by
  intro h
  exact absurd h.1 (by decide)

/-- C1 (amended): the two variants are not byte-identical in message
content; for every choice of field values the host-script subject differs
from the service-script subject (the former starts with `"Host "`, the
latter with `"Service "`), so the message contents always differ. -/
theorem claim_C1 : ∀ (host_name host_state service_desc : String),
    hostSubject host_name host_state ≠
      serviceSubject service_desc host_name host_state := by
  intro n s d h
  have h2 := congrArg String.data h
  simp only [hostSubject, serviceSubject, String.data_append] at h2
  simp only [List.cons_append, List.cons.injEq] at h2
  exact absurd h2.1 (by decide)

/-- C2: in both scripts the state band color is a pure case-sensitive
exact-match function of the state string: `"OK" ↦ "green"`,
`"WARNING" ↦ "orange"`, `"CRITICAL"/"DOWN" ↦ "red"`, and every other
state string (including `"UNKNOWN"`) maps to `"gray"`. -/
theorem claim_C2 :
    (hostColor "OK" = "green" ∧ serviceColor "OK" = "green") ∧
    (hostColor "WARNING" = "orange" ∧ serviceColor "WARNING" = "orange") ∧
    (hostColor "CRITICAL" = "red" ∧ serviceColor "CRITICAL" = "red") ∧
    (hostColor "DOWN" = "red" ∧ serviceColor "DOWN" = "red") ∧
    (hostColor "UNKNOWN" = "gray" ∧ serviceColor "UNKNOWN" = "gray") ∧
    (∀ s : String, s ≠ "OK" → s ≠ "WARNING" → s ≠ "CRITICAL" → s ≠ "DOWN" →
      hostColor s = "gray" ∧ serviceColor s = "gray") := by
  refine ⟨by decide, by decide, by decide, by decide, by decide, ?_⟩
  intro s h1 h2 h3 h4
  constructor
  · unfold hostColor
    rw [if_neg h1, if_neg h2, if_neg (not_or.mpr ⟨h3, h4⟩)]
  · unfold serviceColor
    rw [if_neg h1, if_neg h2, if_neg (not_or.mpr ⟨h3, h4⟩)]

/-- Witness for C2: the default clause evaluated at the unrecognized
state string `"FLAPPING"`. -/
theorem claim_C2_witness :
    hostColor "FLAPPING" = "gray" ∧ serviceColor "FLAPPING" = "gray" :=
  claim_C2.2.2.2.2.2 "FLAPPING" (by decide) (by decide) (by decide) (by decide)

/-- C3: the subject lines are exactly the two templates
`"Host " ++ host_name ++ " status is " ++ host_state` and
`"Service " ++ service_desc ++ " in host " ++ host_name ++
" status is " ++ service_state`. -/
theorem claim_C3 : ∀ (host_name host_state service_desc service_state : String),
    hostSubject host_name host_state =
      "Host " ++ host_name ++ " status is " ++ host_state ∧
    serviceSubject service_desc host_name service_state =
      "Service " ++ service_desc ++ " in host " ++ host_name ++
        " status is " ++ service_state :=
  fun _ _ _ _ => ⟨rfl, rfl⟩

set_option maxRecDepth 20000 in
/-- C4 (counterexample): the claim "the rendered output (subject plus
HTML body) contains the literal value of every input field" is false for
the host script: with `recipient_email = "~"` (and `"x"` everywhere
else) the rendered output does not contain `"~"` — the recipient address
appears only in the `To` header. -/
theorem claim_C4_counterexample :
    strContains (hostMessageText hostRecTilde) hostRecTilde.recipient_email = false := by
  decide

/-- C4 (amended): the rendered output (subject plus HTML body) contains
the literal value of every input field verbatim with no escaping — except
`recipient_email` in the host variant, which is placed only in the `To`
header; and on the spec's example (`host_name = "web01"`,
`host_state = "CRITICAL"`) the output contains `"web01"` and
`"CRITICAL"` and the state band color is `"red"`. -/
theorem claim_C4 :
    (∀ a : HostArgs,
      strContains (hostMessageText a) a.notify_type = true ∧
      strContains (hostMessageText a) a.host_name = true ∧
      strContains (hostMessageText a) a.host_alias = true ∧
      strContains (hostMessageText a) a.host_state = true ∧
      strContains (hostMessageText a) a.host_address = true ∧
      strContains (hostMessageText a) a.host_output = true ∧
      strContains (hostMessageText a) a.totalup = true ∧
      strContains (hostMessageText a) a.totaldown = true ∧
      strContains (hostMessageText a) a.duration = true ∧
      strContains (hostMessageText a) a.date = true ∧
      strContains (hostMessageText a) a.time = true) ∧
    (∀ b : ServiceArgs,
      strContains (serviceMessageText b) b.host_name = true ∧
      strContains (serviceMessageText b) b.host_alias = true ∧
      strContains (serviceMessageText b) b.host_address = true ∧
      strContains (serviceMessageText b) b.service_output = true ∧
      strContains (serviceMessageText b) b.long_date_time = true ∧
      strContains (serviceMessageText b) b.service_desc = true ∧
      strContains (serviceMessageText b) b.service_state = true ∧
      strContains (serviceMessageText b) b.service_duration = true ∧
      strContains (serviceMessageText b) b.contact_email = true ∧
      strContains (serviceMessageText b) b.total_services_warning = true ∧
      strContains (serviceMessageText b) b.total_services_critical = true ∧
      strContains (serviceMessageText b) b.total_services_unknown = true ∧
      strContains (serviceMessageText b) b.host_group_alias = true) ∧
    (∀ a : HostArgs, a.host_name = "web01" → a.host_state = "CRITICAL" →
      strContains (hostMessageText a) "web01" = true ∧
      strContains (hostMessageText a) "CRITICAL" = true ∧
      hostColor a.host_state = "red" ∧
      strContains (hostMessageText a) "red" = true) := by
  refine ⟨?_, ?_, ?_⟩
  · intro a
    exact ⟨hostContainsField a _ (by simp [hostPieces]),
      hostContainsField a _ (by simp [hostPieces]),
      hostContainsField a _ (by simp [hostPieces]),
      hostContainsField a _ (by simp [hostPieces]),
      hostContainsField a _ (by simp [hostPieces]),
      hostContainsField a _ (by simp [hostPieces]),
      hostContainsField a _ (by simp [hostPieces]),
      hostContainsField a _ (by simp [hostPieces]),
      hostContainsField a _ (by simp [hostPieces]),
      hostContainsField a _ (by simp [hostPieces]),
      hostContainsField a _ (by simp [hostPieces])⟩
  · intro b
    exact ⟨serviceContainsField b _ (by simp [servicePieces]),
      serviceContainsField b _ (by simp [servicePieces]),
      serviceContainsField b _ (by simp [servicePieces]),
      serviceContainsField b _ (by simp [servicePieces]),
      serviceContainsField b _ (by simp [servicePieces]),
      serviceContainsField b _ (by simp [servicePieces]),
      serviceContainsField b _ (by simp [servicePieces]),
      serviceContainsField b _ (by simp [servicePieces]),
      serviceContainsField b _ (by simp [servicePieces]),
      serviceContainsField b _ (by simp [servicePieces]),
      serviceContainsField b _ (by simp [servicePieces]),
      serviceContainsField b _ (by simp [servicePieces]),
      serviceContainsField b _ (by simp [servicePieces])⟩
  · intro a h1 h2
    have hc : hostColor a.host_state = "red" := by rw [h2]; decide
    refine ⟨?_, ?_, hc, ?_⟩
    · exact hostContainsField a _ (by rw [← h1]; simp [hostPieces])
    · exact hostContainsField a _ (by rw [← h2]; simp [hostPieces])
    · exact hostContainsField a _ (by rw [← hc]; simp [hostPieces])

/-- Witness for C4: the amended claim's example clause evaluated on the
concrete record `w01Rec`. -/
theorem claim_C4_witness :
    strContains (hostMessageText w01Rec) "web01" = true ∧
    strContains (hostMessageText w01Rec) "CRITICAL" = true ∧
    hostColor w01Rec.host_state = "red" ∧
    strContains (hostMessageText w01Rec) "red" = true :=
  claim_C4.2.2 w01Rec rfl rfl

/-- C5: a run whose command line is missing any required flag reports a
usage error and exits with a non-zero status before the transport is ever
invoked (zero transport attempts), in both scripts; conversely a run with
a complete command line and a successful dispatch exits with status 0. -/
theorem claim_C5 : ∀ (v : HostArgv) (w : ServiceArgv) (t u : Except String Unit),
    (hostMissing v = true →
      (runHostMain v t).exitCode ≠ 0 ∧ (runHostMain v t).transportAttempts = 0) ∧
    (serviceMissing w = true →
      (runServiceMain w u).exitCode ≠ 0 ∧ (runServiceMain w u).transportAttempts = 0) ∧
    (hostMissing v = false → (runHostMain v (.ok ())).exitCode = 0) ∧
    (serviceMissing w = false → (runServiceMain w (.ok ())).exitCode = 0) := by
  intro v w t u
  refine ⟨?_, ?_, ?_, ?_⟩
  · intro h
    cases hp : parseHostArgv v with
    | none => simp [runHostMain, hp]
    | some a => exact absurd (hostMissing_false_of_parse v a hp) (by simp [h])
  · intro h
    cases hp : parseServiceArgv w with
    | none => simp [runServiceMain, hp]
    | some b => exact absurd (serviceMissing_false_of_parse w b hp) (by simp [h])
  · intro h
    obtain ⟨a, hp⟩ := parseHostArgv_some_of v h
    simp [runHostMain, hp, sendHostEmail]
  · intro h
    obtain ⟨b, hp⟩ := parseServiceArgv_some_of w h
    simp [runServiceMain, hp, sendServiceEmail]

/-- Witness for C5: a complete command line dispatches with exit status 0;
dropping `--host_state` (host) or `--contact_email` (service) yields a
non-zero exit with zero transport attempts. -/
theorem claim_C5_witness :
    ((runHostMain hostArgvGap (.ok ())).exitCode ≠ 0 ∧
     (runHostMain hostArgvGap (.ok ())).transportAttempts = 0) ∧
    ((runServiceMain serviceArgvGap (.ok ())).exitCode ≠ 0 ∧
     (runServiceMain serviceArgvGap (.ok ())).transportAttempts = 0) ∧
    (runHostMain hostArgvFull (.ok ())).exitCode = 0 ∧
    (runServiceMain serviceArgvFull (.ok ())).exitCode = 0 :=
  ⟨(claim_C5 hostArgvGap serviceArgvGap (.ok ()) (.ok ())).1 (by decide),
   (claim_C5 hostArgvGap serviceArgvGap (.ok ()) (.ok ())).2.1 (by decide),
   (claim_C5 hostArgvFull serviceArgvFull (.ok ()) (.ok ())).2.2.1 (by decide),
   (claim_C5 hostArgvFull serviceArgvFull (.ok ()) (.ok ())).2.2.2 (by decide)⟩

/-- C6: any exception raised by the transport is caught inside the
script, an error message naming the failure is printed to standard
output, nothing propagates uncaught out of the send routine, and the
transport is attempted exactly once (no retry) — in both scripts. -/
theorem claim_C6 : ∀ (a : HostArgs) (b : ServiceArgs) (e : String),
    ((sendHostEmail a (.error e)).uncaught = none ∧
     (sendHostEmail a (.error e)).printed = ["Failed to send email: " ++ e] ∧
     (sendHostEmail a (.error e)).transportAttempts = 1) ∧
    ((sendServiceEmail b (.error e)).uncaught = none ∧
     (sendServiceEmail b (.error e)).printed = ["Error sending email: " ++ e] ∧
     (sendServiceEmail b (.error e)).transportAttempts = 1) :=
  fun _ _ _ => ⟨⟨rfl, rfl, rfl⟩, ⟨rfl, rfl, rfl⟩⟩

/-- C7: on every execution path of the send block — failure at any stage
or success — the outbound transport resource that was acquired is
released before the routine returns: each path's event trace is either
empty (the acquisition itself failed) or exactly acquire-then-release. -/
theorem claim_C7 : ∀ (p : HostSendPath) (q : ServiceSendPath),
    (hostResourceTrace p = [] ∨
      hostResourceTrace p = [REvent.acquire, REvent.release]) ∧
    (serviceResourceTrace q = [] ∨
      serviceResourceTrace q = [REvent.acquire, REvent.release]) := by
  intro p q
  constructor
  · cases p <;> simp [hostResourceTrace]
  · cases q <;> simp [serviceResourceTrace]

/-- C8: in the host script, `"UP"` and `"UNREACHABLE"` (and every state
other than the four recognized strings) map to the default `"gray"`, and
`"green"` is produced only for the exact string `"OK"` — a host recovery
(state `UP`) is never rendered with the green band. -/
theorem claim_C8 :
    hostColor "UP" = "gray" ∧ hostColor "UNREACHABLE" = "gray" ∧
    ∀ s : String, hostColor s = "green" → s = "OK" := by
  refine ⟨by decide, by decide, ?_⟩
  intro s h
  by_contra hne
  unfold hostColor at h
  rw [if_neg hne] at h
  split at h
  · exact absurd h (by decide)
  · split at h
    · exact absurd h (by decide)
    · exact absurd h (by decide)

/-- Witness for C8: the only-`"OK"`-is-green clause evaluated at
`"OK"` itself. -/
theorem claim_C8_witness :
    hostColor "OK" = "green" ∧ ("OK" : String) = "OK" :=
  ⟨by decide, claim_C8.2.2 "OK" (by decide)⟩

/-- C9: the service script's `From` header is exactly
`"centreon-" ++ host_group_alias ++ "@contoso.com"` — derived verbatim
from the caller-supplied `host_group_alias`, not a fixed constant (two
different aliases give two different sender addresses). -/
theorem claim_C9 :
    (∀ b : ServiceArgs, (buildServiceMessage b).fromAddr =
      "centreon-" ++ b.host_group_alias ++ "@contoso.com") ∧
    serviceSender "groupA" ≠ serviceSender "groupB" :=
  ⟨fun _ => rfl, by decide⟩

/-- C10: when the transport fails, both scripts still exit with status 0 —
the same exit status as a successful send — and the failure is signalled
only by the text printed to standard output. -/
theorem claim_C10 : ∀ (a : HostArgs) (b : ServiceArgs) (e : String),
    (sendHostEmail a (.error e)).exitCode = 0 ∧
    (sendHostEmail a (.ok ())).exitCode = 0 ∧
    (sendHostEmail a (.error e)).printed = ["Failed to send email: " ++ e] ∧
    (sendServiceEmail b (.error e)).exitCode = 0 ∧
    (sendServiceEmail b (.ok ())).exitCode = 0 ∧
    (sendServiceEmail b (.error e)).printed = ["Error sending email: " ++ e] :=
  fun _ _ _ => ⟨rfl, rfl, rfl, rfl, rfl, rfl⟩
